import Mathlib

/-!
Verification of the devotional-document processor `prepare_thoughts_v2.py`.

The file shallowly embeds the text-level core of the script: the regex
pattern library (day markers, study-text / prayer / Bible-reading headers,
label stripping, scripture-reference shape), the paragraph classifier
`classify_paragraph`, the per-day parser state machine of `process`, and the
entry validator.  Paragraphs are modelled as plain strings (the docx
run-formatting/hyperlink enrichment of `get_paragraph_content` is modelled
for unformatted runs, where it reduces to HTML-escaping; `has_links` and
`has_highlights` therefore stay `false`).  Regexes are modelled character by
character over `List Char`, ASCII-scoped: `\s` is the main whitespace set,
`\d` is `0-9`, and `re.IGNORECASE` is ASCII case folding.
-/

namespace Thoughts

/-- Python `\s` (ASCII scope): space, tab, newline, carriage return,
vertical tab, form feed. -/
def isSpaceChar (c : Char) : Bool :=
  c = ' ' || c = '\t' || c = '\n' || c = '\r' || c = '\x0b' || c = '\x0c'

/-- Python `\d` (ASCII scope). -/
def isDigitChar (c : Char) : Bool :=
  '0' ≤ c && c ≤ '9'

/-- Python `\w` (ASCII scope), used for the `\b` word boundary. -/
def isWordChar (c : Char) : Bool :=
  c.isAlpha || isDigitChar c || c = '_'

/-- Is `n` the code of an ASCII upper-case letter? -/
def isUpperN (n : Nat) : Bool :=
  65 ≤ n && n ≤ 90

/-- ASCII case-insensitive character equality, modelling `re.IGNORECASE`. -/
def ciEq (a b : Char) : Bool :=
  a == b || (isUpperN a.toNat && b.toNat == a.toNat + 32)
    || (isUpperN b.toNat && a.toNat == b.toNat + 32)

/-- The literal characters of the separator character class
`[:\-‚Äìî]+` that appears (mojibake included) in the
source regexes, closed under `re.IGNORECASE` case pairs
(`Ä/ä`, `ì/Ì`, `î/Î`). -/
def sepChar (c : Char) : Bool :=
  c = '-' || c = ':' || c = '‚' || c = 'Ä' || c = 'ä'
    || c = 'ì' || c = 'Ì' || c = 'î' || c = 'Î'

/-- `\s*`: drop a maximal run of whitespace. -/
def dropSpaces (l : List Char) : List Char :=
  l.dropWhile isSpaceChar

/-- `\s+`: require at least one whitespace character, then drop the run. -/
def matchSpaces1 : List Char → Option (List Char)
  | [] => none
  | c :: r => if isSpaceChar c then some (dropSpaces r) else none

/-- Decimal value of a digit run. -/
def digitsToNat (l : List Char) : Nat :=
  l.foldl (fun a c => a * 10 + (c.toNat - 48)) 0

/-- `(\d+)`: a maximal nonempty digit run, captured as a number. -/
def matchNat (l : List Char) : Option (Nat × List Char) :=
  let p := l.span isDigitChar
  if p.1 = [] then none else some (digitsToNat p.1, p.2)

/-- Match a literal word case-insensitively as a prefix, returning the rest. -/
def startsWithCI : List Char → List Char → Option (List Char)
  | [], l => some l
  | _ :: _, [] => none
  | p :: ps, c :: cs => if ciEq c p then startsWithCI ps cs else none

/-- Python `$` without `re.MULTILINE`: end of string, or just before one
final newline. -/
def atDollar (l : List Char) : Bool :=
  l = [] || l = ['\n']

/-- Does predicate `p` hold at some position (suffix) of the text?  This is
`pattern.search` for a pattern whose match-at-a-position test is `p`. -/
def searchAnywhere (p : List Char → Bool) : List Char → Bool
  | [] => p []
  | c :: rest => p (c :: rest) || searchAnywhere p rest

/-- A plain (case-sensitive) substring test at the current position. -/
def substrAt : List Char → List Char → Bool
  | [], _ => true
  | _ :: _, [] => false
  | p :: ps, c :: cs => p == c && substrAt ps cs

/-- Case-insensitive substring test at the current position. -/
def substrAtCI : List Char → List Char → Bool
  | [], _ => true
  | _ :: _, [] => false
  | p :: ps, c :: cs => ciEq c p && substrAtCI ps cs

/-- Does `hay` contain `needle` as a (case-sensitive) substring? -/
def containsSubstr (hay needle : String) : Bool :=
  searchAnywhere (substrAt needle.data) hay.data

/-- Does `hay` contain `needle` as a case-insensitive substring? -/
def containsSubstrCI (hay needle : String) : Bool :=
  searchAnywhere (substrAtCI needle.data) hay.data

/-! ### Trimming (Python `str.strip()`) -/

/-- Remove leading whitespace. -/
def trimLeft (l : List Char) : List Char :=
  l.dropWhile isSpaceChar

/-- Remove trailing whitespace. -/
def trimRight : List Char → List Char
  | [] => []
  | c :: t =>
    match trimRight t with
    | [] => if isSpaceChar c then [] else [c]
    | r => c :: r

/-- Python `str.strip()`: remove leading and trailing whitespace. -/
def trimBoth (l : List Char) : List Char :=
  trimRight (trimLeft l)

/-- `str.strip()` on strings. -/
def trimStr (s : String) : String :=
  String.mk (trimBoth s.data)

/-! ### Day-marker patterns (`day_patterns`, matched with `pattern.match`) -/

/-- `^Day\s+(\d+)` (IGNORECASE): returns the captured number. -/
def dayPat1 (l : List Char) : Option Nat :=
  match startsWithCI "day".data l with
  | none => none
  | some r =>
    match matchSpaces1 r with
    | none => none
    | some r2 => (matchNat r2).map Prod.fst

/-- `^(\d+)\s*[-‚Äì‚Äî:]\s*Day` (IGNORECASE). -/
def dayPat2 (l : List Char) : Option Nat :=
  match matchNat l with
  | none => none
  | some (n, r) =>
    match dropSpaces r with
    | [] => none
    | c :: r2 =>
      if sepChar c then
        if (startsWithCI "day".data (dropSpaces r2)).isSome then some n else none
      else none

/-- `^#?\s*(\d+)\s*$` (no flags). -/
def dayPat3 (l : List Char) : Option Nat :=
  let l1 := match l with
    | '#' :: r => r
    | _ => l
  match matchNat (dropSpaces l1) with
  | none => none
  | some (n, r) => if atDollar (dropSpaces r) then some n else none

/-- The first matching day pattern, in the fixed priority order of
`day_patterns`, with its captured number and description. -/
def dayMatchDesc (l : List Char) : Option (Nat × String) :=
  match dayPat1 l with
  | some n => some (n, "Day N")
  | none =>
    match dayPat2 l with
    | some n => some (n, "N - Day")
    | none =>
      match dayPat3 l with
      | some n => some (n, "Standalone number")
      | none => none

/-- Just the captured day number of the first matching day pattern. -/
def dayMatchNum (l : List Char) : Option Nat :=
  (dayMatchDesc l).map Prod.fst

/-! ### Study-text patterns (`study_text_patterns`, unanchored `search`) -/

/-- `study\s*text` at the current position. -/
def patStudyText (l : List Char) : Bool :=
  match startsWithCI "study".data l with
  | some r => (startsWithCI "text".data (dropSpaces r)).isSome
  | none => false

/-- `scripture\s*ref` at the current position. -/
def patScriptureRef (l : List Char) : Bool :=
  match startsWithCI "scripture".data l with
  | some r => (startsWithCI "ref".data (dropSpaces r)).isSome
  | none => false

/-- `w\s*:\s*` at the current position (the trailing `\s*` always matches). -/
def patWordColonL (w : List Char) (l : List Char) : Bool :=
  match startsWithCI w l with
  | some r =>
    match dropSpaces r with
    | ':' :: _ => true
    | _ => false
  | none => false

/-- `w\s*:\s*` for a string keyword. -/
def patWordColon (w : String) (l : List Char) : Bool :=
  patWordColonL w.data l

/-- `study_text_patterns`: each entry is the full `search` behaviour of the
compiled regex plus its description, in source order. -/
def study_text_patterns : List ((List Char → Bool) × String) :=
  [ (searchAnywhere patStudyText, "study text"),
    (searchAnywhere patScriptureRef, "scripture ref"),
    (searchAnywhere (patWordColon "text"), "text:"),
    (searchAnywhere (patWordColon "reading"), "reading:"),
    (searchAnywhere (patWordColon "verse"), "verse:"),
    (searchAnywhere (patWordColon "passage"), "passage:") ]

/-! ### Prayer patterns (`prayer_patterns`; all are `^`-anchored, so their
`search` only ever matches at the start of the string) -/

/-- `^prayer\s*[:\-‚Äì‚Äî]+`. -/
def patPrayerSep (l : List Char) : Bool :=
  match startsWithCI "prayer".data l with
  | some r =>
    match dropSpaces r with
    | c :: _ => sepChar c
    | [] => false
  | none => false

/-- `^prayer\s*$`. -/
def patPrayerAlone (l : List Char) : Bool :=
  match startsWithCI "prayer".data l with
  | some r => atDollar (dropSpaces r)
  | none => false

/-- `^\*?\*?prayer\*?\*?\s*[:\-‚Äì‚Äî]*`: everything after `prayer` is
optional, so this is just up to two stars followed by `prayer`. -/
def patPrayerStars (l : List Char) : Bool :=
  let l1 := match l with
    | '*' :: r => r
    | _ => l
  let l2 := match l1 with
    | '*' :: r => r
    | _ => l1
  (startsWithCI "prayer".data l2).isSome

/-- `^let\s+us\s+pray`. -/
def patLetUsPray (l : List Char) : Bool :=
  match startsWithCI "let".data l with
  | some r =>
    match matchSpaces1 r with
    | some r2 =>
      match startsWithCI "us".data r2 with
      | some r3 =>
        match matchSpaces1 r3 with
        | some r4 => (startsWithCI "pray".data r4).isSome
        | none => false
      | none => false
    | none => false
  | none => false

/-- `prayer_patterns` in source order. -/
def prayer_patterns : List ((List Char → Bool) × String) :=
  [ (patPrayerSep, "Prayer:-"),
    (patPrayerAlone, "Prayer (standalone)"),
    (patPrayerStars, "**Prayer**"),
    (patLetUsPray, "Let us pray") ]

/-! ### Bible-reading patterns (`bible_reading_patterns`, unanchored) -/

/-- `bible\s+(in|on)\s+a?\s*year` at the current position. -/
def patBibleYear (l : List Char) : Bool :=
  match startsWithCI "bible".data l with
  | some r =>
    match matchSpaces1 r with
    | some r2 =>
      let inOn := match startsWithCI "in".data r2 with
        | some x => some x
        | none => startsWithCI "on".data r2
      match inOn with
      | some r3 =>
        match matchSpaces1 r3 with
        | some r4 =>
          let r5 := match r4 with
            | c :: t => if ciEq c 'a' then t else r4
            | [] => r4
          (startsWithCI "year".data (dropSpaces r5)).isSome
        | none => false
      | none => false
    | none => false
  | none => false

/-- `bible\s+reading\s*plan` at the current position. -/
def patBibleReadingPlan (l : List Char) : Bool :=
  match startsWithCI "bible".data l with
  | some r =>
    match matchSpaces1 r with
    | some r2 =>
      match startsWithCI "reading".data r2 with
      | some r3 => (startsWithCI "plan".data (dropSpaces r3)).isSome
      | none => false
    | none => false
  | none => false

/-- `w\s+reading` at the current position. -/
def patThenReading (w : String) (l : List Char) : Bool :=
  match startsWithCI w.data l with
  | some r =>
    match matchSpaces1 r with
    | some r2 => (startsWithCI "reading".data r2).isSome
    | none => false
  | none => false

/-- Candidate remainders for `.?` (matches any character except newline),
in greedy order. -/
def optDot (r : List Char) : List (List Char) :=
  match r with
  | c :: t => if c = '\n' then [r] else [t, r]
  | [] => [r]

/-- Candidate remainders for `s?` (case-insensitive), in greedy order. -/
def optS (r : List Char) : List (List Char) :=
  match r with
  | c :: t => if ciEq c 's' then [t, r] else [r]
  | [] => [r]

/-- `today.?s?\s+reading` at the current position. -/
def patTodaysReading (l : List Char) : Bool :=
  match startsWithCI "today".data l with
  | some r =>
    (optDot r).any fun r1 =>
      (optS r1).any fun r2 =>
        match matchSpaces1 r2 with
        | some r3 => (startsWithCI "reading".data r3).isSome
        | none => false
  | none => false

/-- `read\s+also` at the current position. -/
def patReadAlso (l : List Char) : Bool :=
  match startsWithCI "read".data l with
  | some r =>
    match matchSpaces1 r with
    | some r2 => (startsWithCI "also".data r2).isSome
    | none => false
  | none => false

/-- `bible_reading_patterns` in source order (all unanchored searches). -/
def bible_reading_patterns : List ((List Char → Bool) × String) :=
  [ (searchAnywhere patBibleYear, "Bible in a year"),
    (searchAnywhere patBibleReadingPlan, "Bible reading plan"),
    (searchAnywhere (patThenReading "daily"), "Daily reading"),
    (searchAnywhere patTodaysReading, "Today\x27s reading"),
    (searchAnywhere (patThenReading "further"), "Further reading"),
    (searchAnywhere patReadAlso, "Read also"),
    (searchAnywhere (patThenReading "additional"), "Additional reading") ]

/-- `_match_any_pattern`: first matching pattern wins; returns its
description. -/
def matchAnyPattern : List ((List Char → Bool) × String) → List Char → Option String
  | [], _ => none
  | (p, desc) :: rest, l => if p l then some desc else matchAnyPattern rest l

/-! ### Scripture-reference shape (`_looks_like_scripture_reference`) -/

/-- `\d+\s*:\s*\d+` at the current position. -/
def matchChapterVerse (l : List Char) : Bool :=
  match matchNat l with
  | some (_, r) =>
    match dropSpaces r with
    | ':' :: r2 => (matchNat (dropSpaces r2)).isSome
    | _ => false
  | none => false

/-- The book-name alternation of `_looks_like_scripture_reference`, in source
order; `Psalms?` is expanded into its two alternatives. -/
def bookNames : List String :=
  [ "Genesis", "Exodus", "Leviticus", "Numbers", "Deuteronomy", "Joshua",
    "Judges", "Ruth", "Samuel", "Kings", "Chronicles", "Ezra", "Nehemiah",
    "Esther", "Job", "Psalms", "Psalm", "Proverbs", "Ecclesiastes", "Song",
    "Isaiah", "Jeremiah", "Lamentations", "Ezekiel", "Daniel", "Hosea",
    "Joel", "Amos", "Obadiah", "Jonah", "Micah", "Nahum", "Habakkuk",
    "Zephaniah", "Haggai", "Zechariah", "Malachi", "Matthew", "Mark", "Luke",
    "John", "Acts", "Romans", "Corinthians", "Galatians", "Ephesians",
    "Philippians", "Colossians", "Thessalonians", "Timothy", "Titus",
    "Philemon", "Hebrews", "James", "Peter", "Jude", "Revelation" ]

/-- The trailing `\b` of the book alternation: the next character, if any,
is not a word character. -/
def boundaryEnd (l : List Char) : Bool :=
  match l with
  | [] => true
  | c :: _ => !isWordChar c

/-- Some book name matches (case-insensitively) at the current position,
followed by a word boundary. -/
def matchBookAt (l : List Char) : Bool :=
  bookNames.any fun b =>
    match startsWithCI b.data l with
    | some r => boundaryEnd r
    | none => false

/-- Search for `\b(book...)\b`: `prev` is the character just before the
current position (for the leading word boundary). -/
def searchBook : Option Char → List Char → Bool
  | _, [] => false
  | prev, c :: rest =>
    ((match prev with
      | none => true
      | some p => !isWordChar p) && matchBookAt (c :: rest))
    || searchBook (some c) rest

/-- `_looks_like_scripture_reference`: a chapter-verse pattern anywhere, or
a recognized book name between word boundaries. -/
def looks_like_scripture_reference (s : String) : Bool :=
  searchAnywhere matchChapterVerse s.data || searchBook none s.data

/-! ### Label stripping (`label_strip_patterns` / `_strip_label`) -/

/-- `^prayer\s*[:\-‚Äì‚Äî]+\s*`: the matched prefix, if any, is removed. -/
def stripPrayer (l : List Char) : Option (List Char) :=
  match startsWithCI "prayer".data l with
  | some r =>
    match dropSpaces r with
    | c :: t => if sepChar c then some (dropSpaces (t.dropWhile sepChar)) else none
    | [] => none
  | none => none

/-- `^bible\s+(in|on)\s+a?\s*year\s*(reading\s*plan)?\s*[:\-‚Äì‚Äî]*\s*`. -/
def stripBibleYear (l : List Char) : Option (List Char) :=
  match startsWithCI "bible".data l with
  | none => none
  | some r =>
    match matchSpaces1 r with
    | none => none
    | some r2 =>
      let inOn := match startsWithCI "in".data r2 with
        | some x => some x
        | none => startsWithCI "on".data r2
      match inOn with
      | none => none
      | some r3 =>
        match matchSpaces1 r3 with
        | none => none
        | some r4 =>
          let r5 := match r4 with
            | c :: t => if ciEq c 'a' then t else r4
            | [] => r4
          match startsWithCI "year".data (dropSpaces r5) with
          | none => none
          | some r6 =>
            let r7 := dropSpaces r6
            let r8 := match startsWithCI "reading".data r7 with
              | some x =>
                match startsWithCI "plan".data (dropSpaces x) with
                | some y => y
                | none => r7
              | none => r7
            some (dropSpaces ((dropSpaces r8).dropWhile sepChar))

/-- The common `\s+reading\s*[:\-‚Äì‚Äî]*\s*` tail of the reading strip
pattern. -/
def stripReadingTail (r : List Char) : Option (List Char) :=
  match matchSpaces1 r with
  | some r2 =>
    match startsWithCI "reading".data r2 with
    | some r3 => some (dropSpaces ((dropSpaces r3).dropWhile sepChar))
    | none => none
  | none => none

/-- One branch `w\s+reading\s*[:\-‚Äì‚Äî]*\s*` of the reading strip pattern. -/
def stripWordReading (w : String) (l : List Char) : Option (List Char) :=
  match startsWithCI w.data l with
  | some r => stripReadingTail r
  | none => none

/-- The `today.?s?` branch of the reading strip pattern. -/
def stripTodaysReading (l : List Char) : Option (List Char) :=
  match startsWithCI "today".data l with
  | some r =>
    (optDot r).findSome? fun r1 =>
      (optS r1).findSome? stripReadingTail
  | none => none

/-- `^(daily|today.?s?|further|additional)\s+reading\s*[:\-‚Äì‚Äî]*\s*`:
the alternatives begin with distinct letters, so they are tried in order. -/
def stripOtherReading (l : List Char) : Option (List Char) :=
  match stripWordReading "daily" l with
  | some r => some r
  | none =>
    match stripTodaysReading l with
    | some r => some r
    | none =>
      match stripWordReading "further" l with
      | some r => some r
      | none => stripWordReading "additional" l

/-- `^read\s+also\s*[:\-‚Äì‚Äî]*\s*`. -/
def stripReadAlso (l : List Char) : Option (List Char) :=
  match startsWithCI "read".data l with
  | some r =>
    match matchSpaces1 r with
    | some r2 =>
      match startsWithCI "also".data r2 with
      | some r3 => some (dropSpaces ((dropSpaces r3).dropWhile sepChar))
      | none => none
    | none => none
  | none => none

/-- `^study\s*text\s*[:\-‚Äì‚Äî]*\s*`. -/
def stripStudyText (l : List Char) : Option (List Char) :=
  match startsWithCI "study".data l with
  | some r =>
    match startsWithCI "text".data (dropSpaces r) with
    | some r2 => some (dropSpaces ((dropSpaces r2).dropWhile sepChar))
    | none => none
  | none => none

/-- `label_strip_patterns` in source order.  Each entry removes the matched
(`^`-anchored, hence unique) prefix; `none` means no match. -/
def label_strip_patterns : List (List Char → Option (List Char)) :=
  [stripPrayer, stripBibleYear, stripOtherReading, stripReadAlso, stripStudyText]

/-- One iteration of the `_strip_label` loop:
`result = pattern.sub('', result).strip()`. -/
def stripStep (f : List Char → Option (List Char)) (l : List Char) : List Char :=
  trimBoth (match f l with
    | some r => r
    | none => l)

/-- `_strip_label`: all five patterns applied in sequence, stripping after
each. -/
def strip_label (s : String) : String :=
  String.mk (label_strip_patterns.foldl (fun acc f => stripStep f acc) s.data)

/-! ### HTML escaping (`html.escape`, the plain-text core of
`apply_formatting`/`get_paragraph_content`) -/

/-- `html.escape` of a single character (`quote=True`). -/
def escapeChar (c : Char) : List Char :=
  if c = '&' then "&amp;".data
  else if c = '<' then "&lt;".data
  else if c = '>' then "&gt;".data
  else if c = '"' then "&quot;".data
  else if c = '\x27' then "&#x27;".data
  else [c]

/-- `html.escape` on a string. -/
def htmlEscape (s : String) : String :=
  String.mk (s.data.flatMap escapeChar)

/-! ### Data model -/

/-- `ParseDiagnostic`: why a paragraph was classified a certain way. -/
structure ParseDiagnostic where
  paragraph_index : Nat
  raw_text : String
  classification : String
  reason : String
  matched : Option String := none
deriving DecidableEq, Repr

/-- `EntryValidation`: validation result for a single day. -/
structure EntryValidation where
  day : Nat
  title : String := ""
  missing_sections : List String := []
  warnings : List String := []
  diagnostics : List ParseDiagnostic := []
deriving DecidableEq, Repr

/-- The four-boolean parser state of `process`. -/
structure ParserState where
  awaiting_title : Bool
  awaiting_scripture_ref : Bool
  awaiting_scripture_text : Bool
  in_devotional : Bool
deriving DecidableEq, Repr

/-- The per-day output record built by `process` (text-level fields). -/
structure Entry where
  day : Nat
  title : String := ""
  scripture_ref : String := ""
  scripture_text : String := ""
  devotional : String := ""
  prayer : String := ""
  bible_reading : String := ""
  has_links : Bool := false
  has_highlights : Bool := false
  temp_devotional_list : List String := []
deriving DecidableEq, Repr

/-- A fresh entry as built at a day marker. -/
def newEntry (n : Nat) : Entry :=
  { day := n }

/-- `reset_state`: awaiting the title, everything else off. -/
def resetState : ParserState :=
  ⟨true, false, false, false⟩

/-! ### The classifier (`classify_paragraph`) -/

/-- `classify_paragraph`: pattern groups first (day, study text, prayer,
Bible reading, in that order), positional state second. -/
def classify_paragraph (raw_text : String) (para_index : Nat)
    (state : ParserState) : String × ParseDiagnostic :=
  match dayMatchDesc raw_text.data with
  | some (_, desc) =>
    ("DAY_MARKER", ⟨para_index, raw_text, "DAY_MARKER",
      "Matched day pattern: " ++ desc, some desc⟩)
  | none =>
  match matchAnyPattern study_text_patterns raw_text.data with
  | some desc =>
    ("STUDY_TEXT_HEADER", ⟨para_index, raw_text, "STUDY_TEXT_HEADER",
      "Matched study text pattern: " ++ desc, some desc⟩)
  | none =>
  match matchAnyPattern prayer_patterns raw_text.data with
  | some desc =>
    ("PRAYER", ⟨para_index, raw_text, "PRAYER",
      "Matched prayer pattern: " ++ desc, some desc⟩)
  | none =>
  match matchAnyPattern bible_reading_patterns raw_text.data with
  | some desc =>
    ("BIBLE_READING", ⟨para_index, raw_text, "BIBLE_READING",
      "Matched Bible reading pattern: " ++ desc, some desc⟩)
  | none =>
  if state.awaiting_title then
    ("TITLE", ⟨para_index, raw_text, "TITLE",
      "First non-day paragraph after Day marker, interpreted as title", none⟩)
  else if state.awaiting_scripture_ref then
    if looks_like_scripture_reference raw_text then
      ("SCRIPTURE_REF", ⟨para_index, raw_text, "SCRIPTURE_REF",
        "Looks like a scripture reference (contains book name or chapter:verse pattern)", none⟩)
    else
      ("SCRIPTURE_REF", ⟨para_index, raw_text, "SCRIPTURE_REF",
        "Expected scripture reference position (after Study Text header), but text doesn\x27t look like typical reference - please verify", none⟩)
  else if state.awaiting_scripture_text then
    ("SCRIPTURE_TEXT", ⟨para_index, raw_text, "SCRIPTURE_TEXT",
      "First paragraph after scripture reference, interpreted as scripture text/quote", none⟩)
  else
    ("DEVOTIONAL", ⟨para_index, raw_text, "DEVOTIONAL",
      "No special markers found, classified as devotional content", none⟩)

/-! ### The per-day state machine (`process`, lines 282-387) -/

/-- The inline-reference check of the `STUDY_TEXT_HEADER` branch: the text
after the first colon, stripped, provided it is nonempty and looks like a
scripture reference. -/
def splitFirstColonTail : List Char → Option (List Char)
  | [] => none
  | ':' :: t => some t
  | _ :: t => splitFirstColonTail t

/-- `raw_text.split(":", 1)[1].strip()` guarded by
`after_colon and self._looks_like_scripture_reference(after_colon)`. -/
def inlineRef (raw_text : String) : Option String :=
  match splitFirstColonTail raw_text.data with
  | none => none
  | some tail =>
    let after := String.mk (trimBoth tail)
    if after ≠ "" ∧ looks_like_scripture_reference after then some after else none

/-- The `elif` chain of `process` applying a non-day classification to the
active entry, validation record and state. -/
def applyClassification (entry : Entry) (val : EntryValidation)
    (st : ParserState) (classification raw_text p_html : String) :
    Entry × EntryValidation × ParserState :=
  if classification = "TITLE" ∧ entry.title = "" then
    ({ entry with title := raw_text }, { val with title := raw_text },
     { st with awaiting_title := false })
  else if classification = "STUDY_TEXT_HEADER" then
    let st1 : ParserState :=
      { st with awaiting_scripture_ref := true, awaiting_title := false }
    match inlineRef raw_text with
    | some after =>
      ({ entry with scripture_ref := after }, val,
       { st1 with awaiting_scripture_ref := false, awaiting_scripture_text := true })
    | none => (entry, val, st1)
  else if classification = "SCRIPTURE_REF" ∧ st.awaiting_scripture_ref then
    ({ entry with scripture_ref := strip_label raw_text }, val,
     { st with awaiting_scripture_ref := false, awaiting_scripture_text := true })
  else if classification = "SCRIPTURE_TEXT" ∧ st.awaiting_scripture_text then
    ({ entry with scripture_text := p_html }, val,
     { st with awaiting_scripture_text := false, in_devotional := true })
  else if classification = "PRAYER" then
    ({ entry with prayer := strip_label raw_text }, val,
     { st with in_devotional := false })
  else if classification = "BIBLE_READING" then
    ({ entry with bible_reading := strip_label raw_text }, val,
     { st with in_devotional := false })
  else if classification = "DEVOTIONAL" then
    if entry.title = "" then
      ({ entry with title := raw_text }, { val with title := raw_text },
       { st with awaiting_title := false })
    else
      ({ entry with temp_devotional_list :=
          entry.temp_devotional_list ++ ["<p>" ++ p_html ++ "</p>"] },
       val, { st with in_devotional := true })
  else
    if st.awaiting_title ∧ entry.title = "" then
      ({ entry with title := raw_text }, { val with title := raw_text },
       { st with awaiting_title := false })
    else
      ({ entry with temp_devotional_list :=
          entry.temp_devotional_list ++ ["<p>" ++ p_html ++ "</p>"] },
       val, st)

/-- The loop state of `process`: finished entries/validations, the active
entry (if any), and the parser state. -/
structure ProcState where
  entries : List Entry := []
  validations : List EntryValidation := []
  current : Option (Entry × EntryValidation) := none
  state : ParserState := ⟨false, false, false, false⟩
deriving DecidableEq, Repr

/-- The entry of the active day, as a list (empty when none). -/
def currentEntryList : Option (Entry × EntryValidation) → List Entry
  | some (e, _) => [e]
  | none => []

/-- The validation record of the active day, as a list. -/
def currentValList : Option (Entry × EntryValidation) → List EntryValidation
  | some (_, v) => [v]
  | none => []

/-- The day number re-extracted at a `DAY_MARKER` (the source loops over
`day_patterns` again; first match wins, as in `dayMatchDesc`). -/
def dayNumOf (raw : String) : Nat :=
  match dayMatchDesc raw.data with
  | some (n, _) => n
  | none => 0

/-- One iteration of the paragraph loop of `process`. -/
def processPara (ps : ProcState) (para : String) (para_index : Nat) : ProcState :=
  let raw_text := trimStr para
  if raw_text = "" then ps
  else
    let cd := classify_paragraph raw_text para_index ps.state
    if cd.1 = "DAY_MARKER" then
      let day_num := dayNumOf raw_text
      { entries := ps.entries ++ currentEntryList ps.current,
        validations := ps.validations ++ currentValList ps.current,
        current := some (newEntry day_num,
          { day := day_num, diagnostics := [cd.2] }),
        state := resetState }
    else
      match ps.current with
      | none => ps
      | some (entry, val) =>
        let val1 : EntryValidation :=
          { val with diagnostics := val.diagnostics ++ [cd.2] }
        let t3 := applyClassification entry val1 ps.state cd.1 raw_text (htmlEscape para)
        { ps with current := some (t3.1, t3.2.1), state := t3.2.2 }

/-- The paragraph loop, carrying the running paragraph index. -/
def runParasAux : ProcState → Nat → List String → ProcState
  | ps, _, [] => ps
  | ps, i, p :: rest => runParasAux (processPara ps p i) (i + 1) rest

/-- Run the whole paragraph stream from the initial state. -/
def runParas (paras : List String) : ProcState :=
  runParasAux {} 0 paras

/-- Push the last active entry ("Don\x27t forget the last entry"). -/
def finalizeProc (ps : ProcState) :
    List Entry × List EntryValidation :=
  (ps.entries ++ currentEntryList ps.current,
   ps.validations ++ currentValList ps.current)

/-! ### Validation (`process`, lines 389-417) -/

/-- The missing-section check, in source order; `devotional` is compared
after `.strip()`. -/
def missing_sections_of (e : Entry) : List String :=
  (if e.title = "" then ["title"] else []) ++
  (if e.scripture_ref = "" then ["scripture_ref"] else []) ++
  (if e.scripture_text = "" then ["scripture_text"] else []) ++
  (if trimStr e.devotional = "" then ["devotional"] else []) ++
  (if e.prayer = "" then ["prayer"] else []) ++
  (if e.bible_reading = "" then ["bible_reading"] else [])

/-- The short-devotional warning (only fires when the devotional is
nonempty). -/
def warnings_of (e : Entry) : List String :=
  if trimStr e.devotional = "" then []
  else if e.temp_devotional_list.length < 2 then
    ["Devotional seems short (only " ++ toString e.temp_devotional_list.length
      ++ " paragraph(s))"]
  else []

/-- Join the devotional paragraphs and compute missing sections and
warnings for one entry. -/
def validateEntry (entry : Entry) : Entry × List String × List String :=
  let e := { entry with
    devotional := String.intercalate "\n" entry.temp_devotional_list }
  (e, missing_sections_of e, warnings_of e)

/-- The finished, validated entries of a run: each with its
`missing_sections` and `warnings`. -/
def processEntries (paras : List String) :
    List (Entry × List String × List String) :=
  ((finalizeProc (runParas paras)).1).map validateEntry

/-- The number of entries put into `validation_report`
(`if missing or warnings`). -/
def validationReportLen (paras : List String) : Nat :=
  ((processEntries paras).filter fun t => !(t.2.1.isEmpty && t.2.2.isEmpty)).length

/-- The result dictionary returned by `process` (lines 494-501). -/
structure ProcessResult where
  success : Bool
  total_entries : Nat
  complete : Nat
  incomplete : Nat
deriving DecidableEq, Repr

/-- `process`: the returned summary.  The source sets `"success": True`
unconditionally. -/
def processResult (paras : List String) : ProcessResult :=
  let entries := (finalizeProc (runParas paras)).1
  { success := true,
    total_entries := entries.length,
    complete := entries.length - validationReportLen paras,
    incomplete := validationReportLen paras }

/-! ### Structural lemmas about the classifier -/

/-- The diagnostic always records the label that was returned. -/
theorem classify_classification_eq (t : String) (i : Nat) (s : ParserState) :
    ((classify_paragraph t i s).2).classification = (classify_paragraph t i s).1 := by
  unfold classify_paragraph
  repeat first
    | rfl
    | split

/-- A paragraph is classified `DAY_MARKER` exactly when some day pattern
matches it. -/
theorem classify_day_iff (t : String) (i : Nat) (s : ParserState) :
    (classify_paragraph t i s).1 = "DAY_MARKER" ↔ (dayMatchNum t.data).isSome = true := by
  unfold classify_paragraph dayMatchNum
  cases h : dayMatchDesc t.data with
  | some v => simp [h]
  | none =>
    simp only [h, Option.map_none', Option.isSome_none]
    constructor
    · intro hh
      repeat' split at hh
      all_goals simp_all
    · intro hh
      exact absurd hh (by decide)

/-- `SCRIPTURE_REF` can only come out of the classifier when the state is
not awaiting a title. -/
theorem classify_ref_title_false (t : String) (i : Nat) (s : ParserState)
    (h : (classify_paragraph t i s).1 = "SCRIPTURE_REF") :
    s.awaiting_title = false := by
  unfold classify_paragraph at h
  repeat' split at h
  all_goals simp_all

/-- Applying a non-day classification never changes the entry's day. -/
theorem applyClassification_day (e : Entry) (v : EntryValidation)
    (s : ParserState) (c r h : String) :
    (applyClassification e v s c r h).1.day = e.day := by
  unfold applyClassification
  repeat first
    | rfl
    | split

/-! ### Counting entries and day numbers (for C2) -/

/-- The day numbers of all entries opened so far (finished plus active). -/
def pendingDays (ps : ProcState) : List Nat :=
  (ps.entries ++ currentEntryList ps.current).map fun e => e.day

/-- One paragraph step appends exactly the day number captured by the first
matching day pattern, if any. -/
theorem processPara_pendingDays (ps : ProcState) (p : String) (i : Nat) :
    pendingDays (processPara ps p i)
      = pendingDays ps ++ (match dayMatchNum (trimStr p).data with
          | some n => [n]
          | none => []) := by
  unfold processPara
  by_cases he : trimStr p = ""
  · have h0 : dayMatchNum ([] : List Char) = none := by decide
    simp [he, h0]
  · simp only [if_neg he]
    by_cases hd : (classify_paragraph (trimStr p) i ps.state).1 = "DAY_MARKER"
    · have hsome := (classify_day_iff (trimStr p) i ps.state).mp hd
      obtain ⟨n, hn⟩ := Option.isSome_iff_exists.mp hsome
      obtain ⟨⟨n', d'⟩, hd', hn'⟩ := Option.map_eq_some'.mp hn
      have hday : dayNumOf (trimStr p) = n := by
        unfold dayNumOf; rw [hd']; simpa using hn'
      simp only [if_pos hd, hn]
      simp [pendingDays, currentEntryList, newEntry, hday, List.map_append]
    · have hnone : dayMatchNum (trimStr p).data = none := by
        cases h2 : dayMatchNum (trimStr p).data with
        | none => rfl
        | some m =>
          exact absurd ((classify_day_iff (trimStr p) i ps.state).mpr (by simp [h2])) hd
      simp only [if_neg hd, hnone]
      cases hc : ps.current with
      | none => simp
      | some ev =>
        cases ev with
        | mk e v =>
          simp [pendingDays, currentEntryList, hc, applyClassification_day]

/-- The whole run accumulates exactly the captured day numbers, in order. -/
theorem runParasAux_pendingDays (paras : List String) : ∀ (ps : ProcState) (i : Nat),
    pendingDays (runParasAux ps i paras)
      = pendingDays ps ++ paras.filterMap fun p => dayMatchNum (trimStr p).data := by
  induction paras with
  | nil => intro ps i; simp [runParasAux]
  | cons p rest ih =>
    intro ps i
    simp only [runParasAux]
    rw [ih, processPara_pendingDays]
    cases h : dayMatchNum (trimStr p).data <;> simp [h, List.filterMap_cons]

/-- `filterMap` produces one element per `isSome` hit. -/
theorem length_filterMap_eq_countP {α β : Type} (f : α → Option β) (l : List α) :
    (l.filterMap f).length = l.countP fun a => (f a).isSome := by
  induction l with
  | nil => rfl
  | cons a l ih =>
    cases h : f a <;> simp [List.filterMap_cons, h, List.countP_cons, ih]

/-! ### The reachable-state invariant (for C3) -/

/-- The invariant the code actually maintains: `awaiting_title` excludes the
other two awaiting flags.  (The spec's stronger "at most one of the three"
fails: both scripture flags can be true at once.) -/
def stateOK (s : ParserState) : Prop :=
  (s.awaiting_title && s.awaiting_scripture_ref) = false ∧
  (s.awaiting_title && s.awaiting_scripture_text) = false

theorem applyClassification_stateOK (e : Entry) (v : EntryValidation)
    (s : ParserState) (c r h : String) (hok : stateOK s)
    (href : c = "SCRIPTURE_REF" → s.awaiting_title = false) :
    stateOK (applyClassification e v s c r h).2.2 := by
  unfold applyClassification
  repeat' split
  all_goals simp_all [stateOK]

theorem processPara_stateOK (ps : ProcState) (p : String) (i : Nat)
    (hok : stateOK ps.state) : stateOK (processPara ps p i).state := by
  by_cases he : trimStr p = ""
  · simpa [processPara, he] using hok
  · by_cases hd : (classify_paragraph (trimStr p) i ps.state).1 = "DAY_MARKER"
    · simp [processPara, he, hd, resetState, stateOK]
    · cases hc : ps.current with
      | none => simpa [processPara, he, hd, hc] using hok
      | some ev =>
        cases ev with
        | mk e v =>
          have happ := applyClassification_stateOK e
            { v with diagnostics := v.diagnostics ++ [(classify_paragraph (trimStr p) i ps.state).2] }
            ps.state ((classify_paragraph (trimStr p) i ps.state).1) (trimStr p) (htmlEscape p)
            hok (fun hc2 => classify_ref_title_false _ i ps.state hc2)
          simpa [processPara, he, hd, hc] using happ

theorem runParasAux_stateOK (paras : List String) : ∀ (ps : ProcState) (i : Nat),
    stateOK ps.state → stateOK (runParasAux ps i paras).state := by
  induction paras with
  | nil => intro ps i h; exact h
  | cons p rest ih => intro ps i h; exact ih _ _ (processPara_stateOK ps p i h)

/-! ### Trimming and label-strip lemmas (for C4) -/

theorem dropWhile_idem {α : Type} (p : α → Bool) (l : List α) :
    (l.dropWhile p).dropWhile p = l.dropWhile p := by
  induction l with
  | nil => rfl
  | cons c t ih =>
    by_cases h : p c
    · simp [List.dropWhile_cons, h, ih]
    · simp [List.dropWhile_cons, h]

theorem trimLeft_idem (l : List Char) : trimLeft (trimLeft l) = trimLeft l :=
  dropWhile_idem isSpaceChar l

theorem trimRight_idem (l : List Char) : trimRight (trimRight l) = trimRight l := by
  induction l with
  | nil => rfl
  | cons c t ih =>
    cases h : trimRight t with
    | nil =>
      have hct : trimRight (c :: t) = if isSpaceChar c then [] else [c] := by
        unfold trimRight; rw [h]
      by_cases hc : isSpaceChar c
      · rw [hct, if_pos hc]; rfl
      · rw [hct, if_neg hc]
        simp [trimRight, hc]
    | cons x xs =>
      rw [h] at ih
      have hct : trimRight (c :: t) = c :: x :: xs := by
        unfold trimRight; rw [h]
      rw [hct]
      show trimRight (c :: x :: xs) = c :: x :: xs
      unfold trimRight
      rw [ih]

theorem trimLeft_trimRight_fixed (u : List Char) (hu : trimLeft u = u) :
    trimLeft (trimRight u) = trimRight u := by
  cases u with
  | nil => rfl
  | cons c t =>
    have hc : isSpaceChar c = false := by
      by_cases h : isSpaceChar c
      · exfalso
        have h2 : trimLeft (c :: t) = trimLeft t := by
          simp [trimLeft, List.dropWhile_cons, h]
        rw [hu] at h2
        have h3 : (trimLeft t).length ≤ t.length := (List.dropWhile_suffix _).length_le
        rw [← h2] at h3
        simp at h3
      · simp [h]
    unfold trimRight
    cases h : trimRight t with
    | nil =>
      simp [hc, trimLeft, List.dropWhile_cons]
    | cons x xs =>
      simp [trimLeft, List.dropWhile_cons, hc]

theorem trimBoth_idem (l : List Char) : trimBoth (trimBoth l) = trimBoth l := by
  unfold trimBoth
  rw [trimLeft_trimRight_fixed (trimLeft l) (trimLeft_idem l), trimRight_idem]

theorem stripStep_trimFixed (f : List Char → Option (List Char)) (l : List Char) :
    trimBoth (stripStep f l) = stripStep f l := by
  unfold stripStep
  exact trimBoth_idem _

theorem stripFold_none (fs : List (List Char → Option (List Char))) (l : List Char)
    (ht : trimBoth l = l) (h : ∀ f ∈ fs, f l = none) :
    fs.foldl (fun acc f => stripStep f acc) l = l := by
  induction fs with
  | nil => rfl
  | cons f fs ih =>
    have h1 : stripStep f l = l := by
      unfold stripStep
      rw [h f (List.mem_cons_self f fs), ht]
    simp only [List.foldl_cons, h1]
    exact ih fun g hg => h g (List.mem_cons_of_mem f hg)

/-- Does some strip pattern match (so that a further strip pass would change
anything)? -/
def stripMatchesAny (l : List Char) : Bool :=
  label_strip_patterns.any fun f => (f l).isSome

theorem strip_label_data_trimFixed (s : String) :
    trimBoth (strip_label s).data = (strip_label s).data := by
  simp only [strip_label, label_strip_patterns, List.foldl_cons, List.foldl_nil]
  exact stripStep_trimFixed _ _

/-! ### Substring and pattern-search lemmas (for C10) -/

theorem ciEq_colon {c : Char} (h : ciEq c ':' = true) : c = ':' := by
  unfold ciEq isUpperN at h
  simp only [Bool.or_eq_true, Bool.and_eq_true, beq_iff_eq, decide_eq_true_eq] at h
  have h58 : (':' : Char).toNat = 58 := rfl
  rcases h with (h | ⟨⟨h1, h2⟩, h3⟩) | ⟨⟨h1, h2⟩, h3⟩
  · exact h
  · omega
  · omega

theorem substrAtCI_patWordColonL (w : List Char) : ∀ l,
    substrAtCI (w ++ [':']) l = true → patWordColonL w l = true := by
  induction w with
  | nil =>
    intro l h
    cases l with
    | nil => simp [substrAtCI] at h
    | cons c cs =>
      simp only [List.nil_append] at h
      unfold substrAtCI at h
      simp only [Bool.and_eq_true] at h
      have hc : c = ':' := ciEq_colon h.1
      subst hc
      unfold patWordColonL startsWithCI
      have hsp : isSpaceChar ':' = false := by decide
      simp [dropSpaces, List.dropWhile, hsp]
  | cons a ws ih =>
    intro l h
    cases l with
    | nil => simp [substrAtCI] at h
    | cons c cs =>
      simp only [List.cons_append] at h
      unfold substrAtCI at h
      simp only [Bool.and_eq_true] at h
      unfold patWordColonL startsWithCI
      rw [if_pos h.1]
      exact ih cs h.2

theorem searchAnywhere_mono (p q : List Char → Bool)
    (hpq : ∀ l, p l = true → q l = true) :
    ∀ l, searchAnywhere p l = true → searchAnywhere q l = true := by
  intro l
  induction l with
  | nil => intro h; exact hpq [] h
  | cons c rest ih =>
    intro h
    unfold searchAnywhere at h ⊢
    simp only [Bool.or_eq_true] at h ⊢
    rcases h with h | h
    · exact Or.inl (hpq _ h)
    · exact Or.inr (ih h)

theorem matchAnyPattern_isSome_of_mem (pats : List ((List Char → Bool) × String))
    (l : List Char) (pr : (List Char → Bool) × String) (hm : pr ∈ pats)
    (hp : pr.1 l = true) : (matchAnyPattern pats l).isSome = true := by
  induction pats with
  | nil => cases hm
  | cons q rest ih =>
    obtain ⟨qp, qd⟩ := q
    unfold matchAnyPattern
    rcases List.mem_cons.mp hm with h | h
    · subst h
      simp only [] at hp
      simp [hp]
    · by_cases hq : qp l = true
      · simp [hq]
      · simp only [Bool.not_eq_true] at hq
        simp [hq]
        exact ih h

/-! ## The claims -/

/-- Claim C1: the golden day window ["Day 5", "My Title",
"Study Text: John 3:16", "For God so loved...", "Body para 1.",
"Body para 2.", "Prayer:- Lord hear us", "Bible in a year: Genesis 1-3"]
produces exactly one entry with day 5, title "My Title", scripture
reference "John 3:16", scripture text containing (here: equal to)
"For God so loved...", a devotional holding both body paragraphs in
document order, prayer "Lord hear us", Bible reading "Genesis 1-3", and an
empty missing-sections list. -/
theorem c1_golden_day_window :
    processEntries ["Day 5", "My Title", "Study Text: John 3:16",
        "For God so loved...", "Body para 1.", "Body para 2.",
        "Prayer:- Lord hear us", "Bible in a year: Genesis 1-3"]
      = [({ day := 5, title := "My Title", scripture_ref := "John 3:16",
            scripture_text := "For God so loved...",
            devotional := "<p>Body para 1.</p>\n<p>Body para 2.</p>",
            prayer := "Lord hear us", bible_reading := "Genesis 1-3",
            temp_devotional_list := ["<p>Body para 1.</p>", "<p>Body para 2.</p>"] },
          [], [])] := by
  decide

/-- Claim C2: for every paragraph sequence, a paragraph is classified
`DAY_MARKER` exactly when a day pattern matches it; the produced entries
carry, in encounter order, exactly the integers captured by the first
matching day pattern of each such paragraph; and the number of entries
equals the number of day-marker paragraphs. -/
theorem c2_entries_match_day_markers (paras : List String) :
    (∀ (t : String) (i : Nat) (s : ParserState),
        (classify_paragraph t i s).1 = "DAY_MARKER" ↔ (dayMatchNum t.data).isSome = true)
    ∧ (finalizeProc (runParas paras)).1.map (fun e => e.day)
        = paras.filterMap (fun p => dayMatchNum (trimStr p).data)
    ∧ (finalizeProc (runParas paras)).1.length
        = paras.countP (fun p => (dayMatchNum (trimStr p).data).isSome) := by
  have hmap : (finalizeProc (runParas paras)).1.map (fun e => e.day)
      = paras.filterMap (fun p => dayMatchNum (trimStr p).data) := by
    show pendingDays (runParas paras) = _
    unfold runParas
    rw [runParasAux_pendingDays paras {} 0]
    rfl
  refine ⟨classify_day_iff, hmap, ?_⟩
  have hlen : ((finalizeProc (runParas paras)).1.map (fun e => e.day)).length
      = (finalizeProc (runParas paras)).1.length := List.length_map _ _
  rw [← hlen, hmap, length_filterMap_eq_countP]

/-- Claim C3, counterexample: after "Day 1", an inline-reference study-text
header and then a plain study-text header, BOTH `awaiting_scripture_ref`
and `awaiting_scripture_text` are true, refuting "at most one of the three
awaiting flags is true in every reachable state". -/
theorem c3_two_awaiting_flags_counterexample :
    (runParas ["Day 1", "Study Text: John 3:16", "Study Text"]).state.awaiting_scripture_ref
        = true
    ∧ (runParas ["Day 1", "Study Text: John 3:16", "Study Text"]).state.awaiting_scripture_text
        = true := by
  decide

/-- Claim C3, amended: in every state reachable by processing any paragraph
sequence, `awaiting_title` is never true together with
`awaiting_scripture_ref` or with `awaiting_scripture_text`; the two
scripture flags, however, can be simultaneously true. -/
theorem c3_amended_awaiting_title_exclusive (paras : List String) :
    ((runParas paras).state.awaiting_title
        && (runParas paras).state.awaiting_scripture_ref) = false
    ∧ ((runParas paras).state.awaiting_title
        && (runParas paras).state.awaiting_scripture_text) = false :=
  runParasAux_stateOK paras {} 0 ⟨rfl, rfl⟩

/-- Claim C4, counterexample: stripping is not idempotent.  One pass over
"Study Text: Prayer: hello" removes only the study-text label (the prayer
pattern, tried earlier in the fixed order, saw the unstripped string), so a
second pass removes more. -/
theorem c4_strip_not_idempotent_counterexample :
    strip_label (strip_label "Study Text: Prayer: hello")
      ≠ strip_label "Study Text: Prayer: hello" := by
  decide

/-- Claim C4, amended: label-stripping is idempotent on every string whose
stripped result matches none of the five strip patterns; in general a
second pass can remove an earlier-priority label that a later pattern
exposed. -/
theorem c4_amended_strip_idempotent_when_no_label (s : String)
    (h : stripMatchesAny (strip_label s).data = false) :
    strip_label (strip_label s) = strip_label s := by
  have hnone : ∀ f ∈ label_strip_patterns, f (strip_label s).data = none := by
    intro f hf
    have hfalse := List.any_eq_false.mp h f hf
    cases h2 : f (strip_label s).data with
    | none => rfl
    | some r => rw [h2] at hfalse; simp at hfalse
  have hfold := stripFold_none label_strip_patterns (strip_label s).data
    (strip_label_data_trimFixed s) hnone
  show String.mk _ = _
  rw [hfold]

/-- Claim C4, witness for the amended theorem at the input "hello". -/
theorem c4_amended_witness :
    stripMatchesAny (strip_label "hello").data = false
    ∧ strip_label (strip_label "hello") = strip_label "hello" :=
  ⟨by decide, c4_amended_strip_idempotent_when_no_label "hello" (by decide)⟩

/-- Claim C5: when a paragraph of an active day is classified
`STUDY_TEXT_HEADER` and the stripped text after its first colon looks like
a scripture citation, the step stores that fragment as `scripture_ref`,
leaves the state NOT awaiting a scripture reference but awaiting scripture
text, and the only diagnostic emitted for the paragraph is the
`STUDY_TEXT_HEADER` one (no separate `SCRIPTURE_REF` diagnostic). -/
theorem c5_inline_reference_skips_ref_state (ps : ProcState) (p : String)
    (i : Nat) (e : Entry) (v : EntryValidation) (after : String)
    (hcur : ps.current = some (e, v))
    (hclass : (classify_paragraph (trimStr p) i ps.state).1 = "STUDY_TEXT_HEADER")
    (hinline : inlineRef (trimStr p) = some after) :
    (processPara ps p i).current
        = some ({ e with scripture_ref := after },
                { v with diagnostics := v.diagnostics
                    ++ [(classify_paragraph (trimStr p) i ps.state).2] })
      ∧ (processPara ps p i).state.awaiting_scripture_ref = false
      ∧ (processPara ps p i).state.awaiting_scripture_text = true
      ∧ ((classify_paragraph (trimStr p) i ps.state).2).classification
          = "STUDY_TEXT_HEADER" := by
  have hne : trimStr p ≠ "" := by
    intro h0
    have hn : inlineRef "" = none := by decide
    rw [h0, hn] at hinline
    exact Option.noConfusion hinline
  have happly : applyClassification e
      { v with diagnostics := v.diagnostics
          ++ [(classify_paragraph (trimStr p) i ps.state).2] }
      ps.state "STUDY_TEXT_HEADER" (trimStr p) (htmlEscape p)
      = ({ e with scripture_ref := after },
         { v with diagnostics := v.diagnostics
             ++ [(classify_paragraph (trimStr p) i ps.state).2] },
         ⟨false, false, true, ps.state.in_devotional⟩) := by
    unfold applyClassification
    rw [if_neg (show ¬(("STUDY_TEXT_HEADER" : String) = "TITLE" ∧ e.title = "") by
      intro hh; exact absurd hh.1 (by decide))]
    rw [if_pos rfl, hinline]
  unfold processPara
  simp only [if_neg hne, hclass, hcur]
  simp only [if_neg (show ¬("STUDY_TEXT_HEADER" : String) = "DAY_MARKER" by decide)]
  simp only [happly]
  refine ⟨trivial, trivial, trivial, ?_⟩
  rw [classify_classification_eq, hclass]

/-- A concrete loop state with an active day-1 entry, for the C5 witness. -/
def c5ps : ProcState :=
  { entries := [], validations := [],
    current := some (newEntry 1, { day := 1 }), state := resetState }

/-- Claim C5, witness at the header "Study Text: John 3:16". -/
theorem c5_witness :
    (processPara c5ps "Study Text: John 3:16" 1).state.awaiting_scripture_ref = false
    ∧ (processPara c5ps "Study Text: John 3:16" 1).state.awaiting_scripture_text = true
    ∧ ((classify_paragraph (trimStr "Study Text: John 3:16") 1 c5ps.state).2).classification
        = "STUDY_TEXT_HEADER" := by
  have h := c5_inline_reference_skips_ref_state c5ps "Study Text: John 3:16" 1
    (newEntry 1) { day := 1 } "John 3:16" rfl (by decide) (by decide)
  exact ⟨h.2.1, h.2.2.1, h.2.2.2⟩

/-- Claim C6: in scripture-reference position (after a study-text header,
not awaiting a title) a paragraph matching no day, study-text, prayer or
Bible-reading pattern is always labelled `SCRIPTURE_REF`; when it does not
look like a scripture citation the label is still assigned and the
diagnostic reason contains "please verify". -/
theorem c6_tolerant_scripture_ref_fallback (t : String) (i : Nat) (s : ParserState)
    (ht : s.awaiting_title = false) (hr : s.awaiting_scripture_ref = true)
    (hday : dayMatchDesc t.data = none)
    (hstudy : matchAnyPattern study_text_patterns t.data = none)
    (hprayer : matchAnyPattern prayer_patterns t.data = none)
    (hbible : matchAnyPattern bible_reading_patterns t.data = none) :
    (classify_paragraph t i s).1 = "SCRIPTURE_REF"
    ∧ (looks_like_scripture_reference t = false →
        containsSubstr ((classify_paragraph t i s).2).reason "please verify" = true) := by
  constructor
  · unfold classify_paragraph
    simp only [hday, hstudy, hprayer, hbible, ht, hr, Bool.false_eq_true, if_false, if_true]
    split <;> rfl
  · intro hlk
    unfold classify_paragraph
    simp only [hday, hstudy, hprayer, hbible, ht, hr, hlk, Bool.false_eq_true, if_false, if_true]
    decide

/-- Claim C6, witness at the non-citation text "xyzzy qwerty". -/
theorem c6_witness :
    (classify_paragraph "xyzzy qwerty" 0 ⟨false, true, false, false⟩).1 = "SCRIPTURE_REF"
    ∧ (looks_like_scripture_reference "xyzzy qwerty" = false →
        containsSubstr ((classify_paragraph "xyzzy qwerty" 0
          ⟨false, true, false, false⟩).2).reason "please verify" = true) :=
  c6_tolerant_scripture_ref_fallback "xyzzy qwerty" 0 ⟨false, true, false, false⟩
    rfl rfl (by decide) (by decide) (by decide) (by decide)

/-- Claim C7: an entry whose title, scripture reference, scripture text,
devotional (after stripping) and Bible reading are populated but whose
prayer is empty gets exactly the one-element missing list ["prayer"]. -/
theorem c7_missing_exactly_prayer (e : Entry)
    (h1 : e.title ≠ "") (h2 : e.scripture_ref ≠ "") (h3 : e.scripture_text ≠ "")
    (h4 : trimStr e.devotional ≠ "") (h5 : e.prayer = "") (h6 : e.bible_reading ≠ "") :
    missing_sections_of e = ["prayer"] := by
  unfold missing_sections_of
  rw [if_neg h1, if_neg h2, if_neg h3, if_neg h4, if_pos h5, if_neg h6]
  rfl

/-- A concrete entry missing only its prayer, for the C7 witness. -/
def c7entry : Entry :=
  { day := 1, title := "T", scripture_ref := "R", scripture_text := "S",
    devotional := "<p>D</p>", prayer := "", bible_reading := "B",
    temp_devotional_list := ["<p>D</p>"] }

/-- Claim C7, witness at a concrete entry. -/
theorem c7_witness : missing_sections_of c7entry = ["prayer"] :=
  c7_missing_exactly_prayer c7entry (by decide) (by decide) (by decide)
    (by decide) rfl (by decide)

/-- Claim C9, counterexample: running the single paragraph "Day 1" records
an issue (the entry is missing every section), yet the run does not signal
failure: `success` is `true` unconditionally.  "Failure iff an issue was
recorded" is therefore false. -/
theorem c9_success_despite_issues_counterexample :
    ¬(((processResult ["Day 1"]).success = false)
        ↔ (processResult ["Day 1"]).incomplete ≠ 0) := by
  decide

/-- Claim C9, amended: the result of `process` reports `success = true`
unconditionally — the tool never signals failure, no matter how many
issues the validation report records. -/
theorem c9_amended_always_success (paras : List String) :
    (processResult paras).success = true
    ∧ (processResult paras).incomplete = validationReportLen paras :=
  ⟨rfl, rfl⟩

/-- Claim C10: a nonempty paragraph matching no day pattern that contains
"text:", "reading:", "verse:" or "passage:" anywhere, in any letter case,
is classified `STUDY_TEXT_HEADER` in every parser state, because the
study-text patterns are matched with an unanchored search. -/
theorem c10_unanchored_study_keyword_override (s : ParserState) (t : String) (i : Nat)
    (hne : t ≠ "")
    (hday : dayMatchDesc t.data = none)
    (hkw : containsSubstrCI t "text:" = true ∨ containsSubstrCI t "reading:" = true
         ∨ containsSubstrCI t "verse:" = true ∨ containsSubstrCI t "passage:" = true) :
    (classify_paragraph t i s).1 = "STUDY_TEXT_HEADER" := by
  have key : ∀ (w : String), containsSubstrCI t (w ++ ":") = true →
      searchAnywhere (patWordColon w) t.data = true := by
    intro w h
    have hdata : (w ++ ":").data = w.data ++ [':'] := by
      simp [String.data_append]
    unfold containsSubstrCI at h
    rw [hdata] at h
    exact searchAnywhere_mono _ _ (fun l hl => substrAtCI_patWordColonL w.data l hl) t.data h
  have hstudy : (matchAnyPattern study_text_patterns t.data).isSome = true := by
    rcases hkw with h | h | h | h
    · exact matchAnyPattern_isSome_of_mem _ _ (searchAnywhere (patWordColon "text"), "text:")
        (by unfold study_text_patterns
            exact List.Mem.tail _ (List.Mem.tail _ (List.Mem.head _)))
        (key "text" h)
    · exact matchAnyPattern_isSome_of_mem _ _ (searchAnywhere (patWordColon "reading"), "reading:")
        (by unfold study_text_patterns
            exact List.Mem.tail _ (List.Mem.tail _ (List.Mem.tail _ (List.Mem.head _))))
        (key "reading" h)
    · exact matchAnyPattern_isSome_of_mem _ _ (searchAnywhere (patWordColon "verse"), "verse:")
        (by unfold study_text_patterns
            exact List.Mem.tail _ (List.Mem.tail _ (List.Mem.tail _ (List.Mem.tail _
              (List.Mem.head _)))))
        (key "verse" h)
    · exact matchAnyPattern_isSome_of_mem _ _ (searchAnywhere (patWordColon "passage"), "passage:")
        (by unfold study_text_patterns
            exact List.Mem.tail _ (List.Mem.tail _ (List.Mem.tail _ (List.Mem.tail _
              (List.Mem.tail _ (List.Mem.head _))))))
        (key "passage" h)
  obtain ⟨d, hd2⟩ := Option.isSome_iff_exists.mp hstudy
  unfold classify_paragraph
  simp only [hday, hd2]

/-- Claim C10, witness: "Some TEXT: thing" is classified
`STUDY_TEXT_HEADER` even while the state awaits a title. -/
theorem c10_witness :
    (classify_paragraph "Some TEXT: thing" 0 ⟨true, false, false, false⟩).1
      = "STUDY_TEXT_HEADER" :=
  c10_unanchored_study_keyword_override ⟨true, false, false, false⟩
    "Some TEXT: thing" 0 (by decide) (by decide) (Or.inl (by decide))

end Thoughts
